import Mathlib

/-!
Verification of the chaos-mesh fault-injection fork: shallow embedding of
the EnvoyChaos implementation (`controllers/chaosimpl/envoychaos`), the
RuntimeMutatorChaos implementation (`controllers/chaosimpl/runtimemutatorchaos`),
the chaos-daemon JVM server (`pkg/chaosdaemon/jvm_server.go`) and the fuse
device grant (`pkg/fusedev/fusedev_linux.go`), together with theorems about
the properties the specification states for them.

External effects (the Kubernetes API, command execution, the proc and cgroup
filesystems) are modelled by explicit state passing or by parameters that
carry the outcome of each external call, exactly in the order the Go code
performs them.
-/

/-! ### Go strings helpers

`strContains s pat` mirrors Go `strings.Contains(s, pat)` over the character
list of the string. -/

def listStartsWith : List Char → List Char → Bool
  | [], _ => true
  | _ :: _, [] => false
  | p :: ps, c :: cs => p = c && listStartsWith ps cs

def listContainsSub (pat : List Char) : List Char → Bool
  | [] => listStartsWith pat []
  | c :: rest => listStartsWith pat (c :: rest) || listContainsSub pat rest

def strContains (s pat : String) : Bool :=
  listContainsSub pat.data s.data

/-! ### Outcome of one external command

`CmdResult` is the observable outcome of running one external command via
`bpm.DefaultProcessBuilder(...).Build(ctx).CombinedOutput()`: the combined
stdout and stderr output, and whether the command returned an error. -/

inductive CmdResult where
  | ok (output : String)
  | fail (output : String)
deriving DecidableEq

/-! ### DaemonServer.InstallJVMRules (pkg/chaosdaemon/jvm_server.go, lines 96-160)

The four benign install-error substrings enumerated in the source. -/

def errMsg1 : String := "Agent JAR loaded but agent failed to initialize"

def errMsg2 : String := "Provider sun.tools.attach.LinuxAttachProvider not found"

def errMsg3 : String := "install java.io.IOException: Non-numeric value found"

def errMsg4 : String := "com.sun.tools.attach.AgentLoadException"

/-- The two submit steps of `InstallJVMRules` (submit helper jar, then submit
rules): each failing command aborts with its combined output as the error. -/
def submitJVMSteps (submitHelper submitRules : CmdResult) : Except String Unit :=
  match submitHelper with
  | .fail output => Except.error output
  | .ok _ =>
    match submitRules with
    | .fail output => Except.error output
    | .ok _ => Except.ok ()

/-- `InstallJVMRules` from the `bminstall.sh` invocation onwards: when the
install command fails, its combined output is matched against the four known
benign substrings; if none occurs the failure is surfaced, otherwise the
function continues to the submit steps. -/
def installJVMRulesFromInstall (install submitHelper submitRules : CmdResult) :
    Except String Unit :=
  match install with
  | .ok _ => submitJVMSteps submitHelper submitRules
  | .fail output =>
    if !(strContains output errMsg1) && !(strContains output errMsg2) &&
       !(strContains output errMsg3) && !(strContains output errMsg4) then
      Except.error output
    else
      submitJVMSteps submitHelper submitRules

/-! ### DaemonServer.UninstallJVMRules (jvm_server.go, lines 163-198) -/

def noRuleScriptsMsg : String := "No rule scripts to remove"

/-- `UninstallJVMRules`: resolve the container PID, write the rule file, run
`bmsubmit.sh -u`; a failing uninstall whose output contains the
"No rule scripts to remove" substring is success, every other failure is
surfaced with the combined output. -/
def uninstallJVMRules (pidResult : Except String Nat) (ruleFile : Except String String)
    (submitU : CmdResult) : Except String Unit :=
  match pidResult with
  | .error e => Except.error e
  | .ok _ =>
    match ruleFile with
    | .error e => Except.error e
    | .ok _ =>
      match submitU with
      | .ok _ => Except.ok ()
      | .fail output =>
        if strContains output noRuleScriptsMsg then Except.ok ()
        else Except.error output

/-! ### DaemonServer.UninstallRuntimeMutator (jvm_server.go, lines 273-332) -/

def javaCommName : String := "java\n"

def noJavaProcessMsg : String := "no Java process found in container"

def connectionRefusedMsg : String := "Connection refused"

/-- The java-process discovery loop shared by the JVM handlers: walk the
candidate PIDs, skip a PID whose comm name cannot be read, pick the first
whose short command name is "java". `comm` is the outcome of
`util.ReadCommName` for each PID. -/
def findJavaPid (comm : Nat → Except String String) : List Nat → Option Nat
  | [] => none
  | p :: rest =>
    match comm p with
    | .error _ => findJavaPid comm rest
    | .ok name => if name = javaCommName then some p else findJavaPid comm rest

/-- `UninstallRuntimeMutator`: resolve the container PID, locate the java
process, POST to the disable endpoint via curl; a failing curl whose output
contains "Connection refused" is treated as successful recovery (empty
response, nil error), every other curl failure is surfaced. -/
def uninstallRuntimeMutator (pidResult : Except String Nat) (childPids : List Nat)
    (comm : Nat → Except String String) (curl : CmdResult) : Except String Unit :=
  match pidResult with
  | .error e => Except.error e
  | .ok pid =>
    match findJavaPid comm (pid :: childPids) with
    | none => Except.error noJavaProcessMsg
    | some _ =>
      match curl with
      | .ok _ => Except.ok ()
      | .fail output =>
        if strContains output connectionRefusedMsg then Except.ok ()
        else Except.error output

/-! ### fusedev.GrantAccess (pkg/fusedev/fusedev_linux.go, lines 77-119)

The part of `GrantAccess` after the `/proc/<pid>/cgroup` scan has produced
`isCgroupV2` and `deviceCgroupPath`: the cgroup v2 devices-controller gate,
the resolution of the `devices.allow` write target under the `/host-sys`
mount, and the single rule write. -/

def devicesAllowContent : String := "c 10:229 rwm"

def devicesControllerName : String := "devices"

/-- Resolution of the `devices.allow` write target (lines 96-109): v1 under
the per-controller mount, v2 under the unified mount, with the root cgroup
path special-cased to avoid a doubled slash. -/
def resolveDevicesAllowPath (isCgroupV2 : Bool) (deviceCgroupPath : String) : String :=
  if isCgroupV2 then
    if deviceCgroupPath = "/" then "/host-sys/fs/cgroup/devices.allow"
    else "/host-sys/fs/cgroup" ++ deviceCgroupPath ++ "/devices.allow"
  else
    if deviceCgroupPath = "/" then "/host-sys/fs/cgroup/devices/devices.allow"
    else "/host-sys/fs/cgroup/devices" ++ deviceCgroupPath ++ "/devices.allow"

/-- One attempted filesystem side effect of `GrantAccess`: opening the
resolved control file and writing the device rule to it. -/
inductive FsWrite where
  | devicesAllow (path : String) (content : String)
deriving DecidableEq

/-- The open-and-write step (lines 110-119): `writeFile` carries the combined
outcome of `os.OpenFile` and `WriteString` on the resolved path; the write is
recorded as an attempted side effect. -/
def grantWriteStep (writeFile : String → Except String Unit) (path : String) :
    Except String Unit × List FsWrite :=
  (writeFile path, [FsWrite.devicesAllow path devicesAllowContent])

/-- `GrantAccess` after the cgroup scan (lines 77-119). `controllersFile` is
the outcome of reading `cgroup.controllers` (`none` when the read failed).
Under cgroup v2, a readable controllers file that does not list the devices
controller makes the whole call a successful no-op; otherwise the resolved
`devices.allow` file is opened and written. -/
def grantAccessPostScan (writeFile : String → Except String Unit) (isCgroupV2 : Bool)
    (deviceCgroupPath : String) (controllersFile : Option String) :
    Except String Unit × List FsWrite :=
  if isCgroupV2 then
    match controllersFile with
    | some controllers =>
      if !(strContains controllers devicesControllerName) then (Except.ok (), [])
      else grantWriteStep writeFile (resolveDevicesAllowPath true deviceCgroupPath)
    | none => grantWriteStep writeFile (resolveDevicesAllowPath true deviceCgroupPath)
  else
    grantWriteStep writeFile (resolveDevicesAllowPath false deviceCgroupPath)

/-! ### Phase (api/v1alpha1)

Injection phase of a Record: transitions between these two values are driven
by Apply and Recover. -/

inductive Phase where
  | NotInjected
  | Injected
deriving DecidableEq

/-! ### EnvoyChaos data model (api/v1alpha1/envoychaos_types.go)

Go nil-able pointer fields become `Option`; the `Percentage` fields carry the
numeric percentage value. -/

structure EnvoyDelayConfig where
  fixedDelay : Option String
  percentage : Option Int
deriving DecidableEq

structure EnvoyAbortConfig where
  httpStatus : Option Int
  grpcStatus : Option Int
  percentage : Option Int
deriving DecidableEq

/-- `EnvoyChaosSpec`: the fields the implementation and the defaulting
webhook read and write. Header rules are a list of name-value pairs (the Go
map, in iteration order). -/
structure EnvoyChaosSpec where
  action : String
  protocol : String
  envoyConfigNamespace : String
  delay : Option EnvoyDelayConfig
  abort : Option EnvoyAbortConfig
  percentage : Option Int
  headers : List (String × String)
  targetService : String
  targetNamespace : String
  targetPort : Option Int
deriving DecidableEq

/-- An `EnvoyChaos` object: its metadata name, its metadata namespace
(`nspace`, since namespace is a reserved word here) and its spec. -/
structure EnvoyChaos where
  name : String
  nspace : String
  spec : EnvoyChaosSpec
deriving DecidableEq

/-! ### Generated Envoy fault-filter configuration
(Impl.generateFaultConfig, controllers/chaosimpl/envoychaos) -/

/-- A generated header match rule: `exactMatch` by default, `safeRegexMatch`
when the configured value carries the regex tag. -/
inductive HeaderMatch where
  | exactMatch (value : String)
  | safeRegexMatch (regex : String)
deriving DecidableEq

/-- The percentage object placed in the generated filter:
`{numerator, denominator: "HUNDRED"}`. -/
structure FaultPercentage where
  numerator : Int
  denominator : String
deriving DecidableEq

structure GeneratedDelay where
  fixedDelay : String
  percentage : Option FaultPercentage
deriving DecidableEq

structure GeneratedAbort where
  grpcStatus : Option Int
  httpStatus : Option Int
  percentage : Option FaultPercentage
deriving DecidableEq

/-- The `envoy.filters.http.fault` typedConfig produced by
`generateFaultConfig`: the optional delay and abort sections, the optional
header match list and the optional upstream cluster. -/
structure GeneratedFaultConfig where
  delay : Option GeneratedDelay
  abort : Option GeneratedAbort
  headers : Option (List (String × HeaderMatch))
  upstreamCluster : Option String
deriving DecidableEq

/-- The percentage assignment pattern used for both fault kinds: start from
the resource-level value, overwrite with the per-kind value when that one is
set. -/
def pickPercentage (resourcePct kindPct : Option Int) : Option Int :=
  match kindPct with
  | some p => some p
  | none => resourcePct

def mkFaultPercentage (pct : Option Int) : Option FaultPercentage :=
  pct.map (fun n => { numerator := n, denominator := "HUNDRED" })

/-- The status-code selection inside the abort section: `grpcStatus` when the
protocol is grpc and a grpc status is set, otherwise `httpStatus` when an
http status is set, otherwise neither. -/
def abortStatuses (protocol : String) (a : EnvoyAbortConfig) : Option Int × Option Int :=
  if protocol = "grpc" ∧ a.grpcStatus.isSome then (a.grpcStatus, none)
  else if a.httpStatus.isSome then (none, a.httpStatus)
  else (none, none)

/-- One header rule: values with the "regex:" tag become a safe regex match
on the value with the six-character tag removed (strings.TrimPrefix),
every other value an exact match. -/
def mkHeaderMatch (value : String) : HeaderMatch :=
  if value.startsWith ("regex:") then HeaderMatch.safeRegexMatch (value.drop 6)
  else HeaderMatch.exactMatch value

/-- `Impl.generateFaultConfig`: build the fault filter typedConfig from the
spec. The delay section appears only when a delay with a fixedDelay is
configured; the abort section whenever an abort is configured; per-kind
percentages override the resource-level percentage for their own section. -/
def generateFaultConfig (spec : EnvoyChaosSpec) : GeneratedFaultConfig where
  delay :=
    match spec.delay with
    | some d =>
      match d.fixedDelay with
      | some fd =>
        some { fixedDelay := fd,
               percentage := mkFaultPercentage (pickPercentage spec.percentage d.percentage) }
      | none => none
    | none => none
  abort :=
    match spec.abort with
    | some a =>
      some { grpcStatus := (abortStatuses spec.protocol a).1,
             httpStatus := (abortStatuses spec.protocol a).2,
             percentage := mkFaultPercentage (pickPercentage spec.percentage a.percentage) }
    | none => none
  headers :=
    if spec.headers.length > 0 then
      some (spec.headers.map (fun nv => (nv.1, mkHeaderMatch nv.2)))
    else none
  upstreamCluster :=
    if spec.targetService ≠ "" then some spec.targetService else none

/-! ### CiliumEnvoyConfig objects and the cluster state

The proxy-config boundary artifact built by `Impl.buildCiliumEnvoyConfig`,
and an in-memory model of the Kubernetes API server restricted to these
objects: an association list from (namespace, name) keys to objects, with
Get, Create (failing when the key exists), Update (replacing the whole
object) and Delete. -/

structure CiliumEnvoyConfig where
  name : String
  nspace : String
  chaosLabel : String
  serviceName : String
  serviceNamespace : String
  ports : Option Int
  listenerName : String
  faultConfig : GeneratedFaultConfig
deriving DecidableEq

/-- `Impl.buildCiliumEnvoyConfig`: the generated object carries the config
name and namespace, the chaos-mesh.org/chaos label, the service reference
(name, namespace and optional port list), a listener named after the target
service, and the nested fault filter configuration. -/
def buildCiliumEnvoyConfig (configName configNamespace serviceName serviceNamespace
    chaosName : String) (targetPort : Option Int) (faultConfig : GeneratedFaultConfig) :
    CiliumEnvoyConfig where
  name := configName
  nspace := configNamespace
  chaosLabel := chaosName
  serviceName := serviceName
  serviceNamespace := serviceNamespace
  ports := targetPort
  listenerName := "chaos-listener-" ++ serviceName
  faultConfig := faultConfig

inductive K8sErr where
  | notFound
  | alreadyExists
deriving DecidableEq

def k8sErrMessage : K8sErr → String
  | .notFound => "not found"
  | .alreadyExists => "already exists"

abbrev ObjKey := String × String

abbrev Cluster := List (ObjKey × CiliumEnvoyConfig)

def clusterGet : Cluster → ObjKey → Option CiliumEnvoyConfig
  | [], _ => none
  | (k, v) :: rest, key => if k = key then some v else clusterGet rest key

def clusterDelete : Cluster → ObjKey → Cluster
  | [], _ => []
  | (k, v) :: rest, key =>
    if k = key then clusterDelete rest key else (k, v) :: clusterDelete rest key

def clusterReplace : Cluster → ObjKey → CiliumEnvoyConfig → Cluster
  | [], _, _ => []
  | (k, v) :: rest, key, obj =>
    if k = key then (key, obj) :: clusterReplace rest key obj
    else (k, v) :: clusterReplace rest key obj

def clusterCreate (c : Cluster) (key : ObjKey) (obj : CiliumEnvoyConfig) :
    Except K8sErr Cluster :=
  match clusterGet c key with
  | some _ => Except.error K8sErr.alreadyExists
  | none => Except.ok ((key, obj) :: c)

def clusterUpdate (c : Cluster) (key : ObjKey) (obj : CiliumEnvoyConfig) :
    Except K8sErr Cluster :=
  match clusterGet c key with
  | some _ => Except.ok (clusterReplace c key obj)
  | none => Except.error K8sErr.notFound

/-! ### The service-level EnvoyChaos implementation
(controllers/chaosimpl/envoychaos Impl.Apply, Impl.Recover,
Impl.applyEnvoyConfigForService, Impl.removeEnvoyConfig) -/

/-- The deterministic config name: `fmt.Sprintf("chaos-%s", envoychaos.Name)`. -/
def envoyConfigName (chaosName : String) : String := "chaos-" ++ chaosName

/-- The service namespace resolution shared by Apply and Recover: the
resource namespace, overridden by `TargetNamespace` and then by
`EnvoyConfigNamespace` when those are set. -/
def resolveServiceNamespace (ec : EnvoyChaos) : String :=
  if ec.spec.targetNamespace ≠ "" then ec.spec.targetNamespace
  else if ec.spec.envoyConfigNamespace ≠ "" then ec.spec.envoyConfigNamespace
  else ec.nspace

/-- `Impl.applyEnvoyConfigForService`: generate the fault config, build the
CiliumEnvoyConfig named `chaos-<resource-name>` in the service namespace,
try to Create it and fall back to an Update of the whole object when it
already exists. -/
def applyEnvoyConfigForService (c : Cluster) (ec : EnvoyChaos) (serviceNamespace : String) :
    Except K8sErr Cluster :=
  let faultConfig := generateFaultConfig ec.spec
  let configName := envoyConfigName ec.name
  let config := buildCiliumEnvoyConfig configName serviceNamespace ec.spec.targetService
    serviceNamespace ec.name ec.spec.targetPort faultConfig
  match clusterCreate c (serviceNamespace, configName) config with
  | .ok c1 => Except.ok c1
  | .error e =>
    match e with
    | .alreadyExists => clusterUpdate c (serviceNamespace, configName) config
    | _ => Except.error e

/-- `Impl.removeEnvoyConfig`: Get the object named `chaos-<resource-name>`
in the service namespace, then Delete it; a missing object surfaces the Get
not-found error. -/
def removeEnvoyConfig (c : Cluster) (ec : EnvoyChaos) (serviceNamespace : String) :
    Except K8sErr Cluster :=
  let configName := envoyConfigName ec.name
  match clusterGet c (serviceNamespace, configName) with
  | none => Except.error K8sErr.notFound
  | some _ => Except.ok (clusterDelete c (serviceNamespace, configName))

/-- The observable outcome of one Apply or Recover call: the returned Phase,
the returned error, and the resulting cluster state. -/
structure ImplResult where
  phase : Phase
  err : Option String
  cluster : Cluster
deriving DecidableEq

/-- `Impl.Apply` (service level): only index 0 acts; a missing targetService
is a validation error with Phase NotInjected; otherwise the envoy config is
applied for the resolved service namespace, any failure returning
NotInjected with the error. -/
def implApply (c : Cluster) (index : Nat) (ec : EnvoyChaos) : ImplResult :=
  if index > 0 then ⟨Phase.Injected, none, c⟩
  else if ec.spec.targetService = "" then
    ⟨Phase.NotInjected, some ("targetService must be specified for EnvoyChaos"), c⟩
  else
    let serviceNamespace := resolveServiceNamespace ec
    match applyEnvoyConfigForService c ec serviceNamespace with
    | .error e => ⟨Phase.NotInjected, some (k8sErrMessage e), c⟩
    | .ok c1 => ⟨Phase.Injected, none, c1⟩

/-- `Impl.Recover` (service level): only index 0 acts; a missing
targetService is a validation error; otherwise the envoy config is removed,
a not-found Get meaning the target configuration is already gone and
yielding `(NotInjected, nil)`, any other removal failure yielding
`(Injected, err)`. -/
def implRecover (c : Cluster) (index : Nat) (ec : EnvoyChaos) : ImplResult :=
  if index > 0 then ⟨Phase.NotInjected, none, c⟩
  else if ec.spec.targetService = "" then
    ⟨Phase.NotInjected, some ("targetService must be specified for EnvoyChaos"), c⟩
  else
    let serviceNamespace := resolveServiceNamespace ec
    match removeEnvoyConfig c ec serviceNamespace with
    | .error K8sErr.notFound => ⟨Phase.NotInjected, none, c⟩
    | .error e => ⟨Phase.Injected, some (k8sErrMessage e), c⟩
    | .ok c1 => ⟨Phase.NotInjected, none, c1⟩

/-! ### The EnvoyChaos defaulting webhook
(EnvoyChaos.Default, api/v1alpha1 envoychaos webhook) -/

/-- `EnvoyChaos.Default()`: default protocol grpc, default action fault,
default percentage 100 when unset, default EnvoyConfigNamespace to the
object namespace. The pod-selector namespace defaulting performed first by
`Selector.DefaultNamespace` touches no spec field modelled here. -/
def envoyChaosDefault (ec : EnvoyChaos) : EnvoyChaos :=
  let spec := ec.spec
  let spec := if spec.protocol = "" then { spec with protocol := "grpc" } else spec
  let spec := if spec.action = "" then { spec with action := "fault" } else spec
  let spec :=
    match spec.percentage with
    | none => { spec with percentage := some 100 }
    | some _ => spec
  let spec :=
    if spec.envoyConfigNamespace = "" then { spec with envoyConfigNamespace := ec.nspace }
    else spec
  { ec with spec := spec }

/-! ### The RuntimeMutatorChaos implementation
(controllers/chaosimpl/runtimemutatorchaos Impl.Apply) -/

/-- The daemon response of `InstallRuntimeMutator`: an explicit
success flag and a message. -/
structure RuntimeMutatorResponse where
  success : Bool
  message : String
deriving DecidableEq

/-- `RuntimeMutatorChaosSpec` fields read by Apply (From, To and Strategy are
nil-able). -/
structure RuntimeMutatorSpec where
  action : String
  className : String
  method : String
  port : Int
  fromVal : Option String
  toVal : Option String
  strategy : Option String
deriving DecidableEq

/-- The environment of one Apply call: whether the record decoder was wired
in, the outcome of `DecodeContainerRecord` (the decoded container id on
success), and the outcome of the daemon `InstallRuntimeMutator` call. -/
structure RMApplyEnv where
  hasDecoder : Bool
  decodeResult : Except String String
  installResult : Except String RuntimeMutatorResponse

/-- `Impl.Apply` for RuntimeMutatorChaos: nil decoder, record decode failure,
per-action validation failure, daemon install error and unsuccessful daemon
response each abort with Phase NotInjected and the error; only a successful
install returns `(Injected, nil)`. -/
def rmApply (env : RMApplyEnv) (spec : RuntimeMutatorSpec) : Phase × Option String :=
  if !env.hasDecoder then (Phase.NotInjected, some ("decoder is nil"))
  else
    match env.decodeResult with
    | .error e => (Phase.NotInjected, some e)
    | .ok _ =>
      if spec.action = "constant" ∧ (spec.fromVal = none ∨ spec.toVal = none) then
        (Phase.NotInjected, some ("from and to fields are required for constant mutation"))
      else if (spec.action = "operator" ∨ spec.action = "string") ∧ spec.strategy = none then
        (Phase.NotInjected, some ("strategy field is required for operator/string mutation"))
      else
        match env.installResult with
        | .error e => (Phase.NotInjected, some e)
        | .ok resp =>
          if !resp.success then (Phase.NotInjected, some resp.message)
          else (Phase.Injected, none)

/-! ### Lemmas about the cluster model -/

theorem clusterGet_delete_self (c : Cluster) (k : ObjKey) :
    clusterGet (clusterDelete c k) k = none := by
  induction c with
  | nil => rfl
  | cons hd tl ih =>
    obtain ⟨k0, v0⟩ := hd
    by_cases h : k0 = k
    · simp [clusterDelete, h, ih]
    · simp [clusterDelete, clusterGet, h, ih]

theorem clusterGet_delete_ne (c : Cluster) (k k1 : ObjKey) (h : k1 ≠ k) :
    clusterGet (clusterDelete c k) k1 = clusterGet c k1 := by
  induction c with
  | nil => rfl
  | cons hd tl ih =>
    obtain ⟨k0, v0⟩ := hd
    by_cases h0 : k0 = k
    · subst h0
      have hne : ¬k0 = k1 := fun he => h he.symm
      simp [clusterDelete, clusterGet, hne, ih]
    · simp [clusterDelete, clusterGet, h0, ih]

theorem clusterGet_replace_self (c : Cluster) (k : ObjKey) (v w : CiliumEnvoyConfig)
    (h : clusterGet c k = some w) :
    clusterGet (clusterReplace c k v) k = some v := by
  induction c with
  | nil => simp [clusterGet] at h
  | cons hd tl ih =>
    obtain ⟨k0, v0⟩ := hd
    by_cases h0 : k0 = k
    · simp [clusterReplace, clusterGet, h0]
    · simp [clusterGet, h0] at h
      simp [clusterReplace, clusterGet, h0, ih h]

theorem clusterGet_replace_ne (c : Cluster) (k k1 : ObjKey) (v : CiliumEnvoyConfig)
    (h : k1 ≠ k) :
    clusterGet (clusterReplace c k v) k1 = clusterGet c k1 := by
  induction c with
  | nil => rfl
  | cons hd tl ih =>
    obtain ⟨k0, v0⟩ := hd
    by_cases h0 : k0 = k
    · subst h0
      have hne : ¬k0 = k1 := fun he => h he.symm
      simp [clusterReplace, clusterGet, hne, ih]
    · simp [clusterReplace, clusterGet, h0, ih]

/-- The outcome of `Impl.Recover` at index 0 with a configured targetService,
as a function of whether the config object is present. -/
theorem implRecover_zero_eq (c : Cluster) (ec : EnvoyChaos)
    (hts : ¬ec.spec.targetService = "") :
    implRecover c 0 ec =
      match clusterGet c (resolveServiceNamespace ec, envoyConfigName ec.name) with
      | none => ⟨Phase.NotInjected, none, c⟩
      | some _ => ⟨Phase.NotInjected, none,
          clusterDelete c (resolveServiceNamespace ec, envoyConfigName ec.name)⟩ := by
  cases hget : clusterGet c (resolveServiceNamespace ec, envoyConfigName ec.name) <;>
    simp [implRecover, removeEnvoyConfig, hts, hget]

/-! ### Claim theorems -/

/-- Claim C1: `Impl.Recover` for EnvoyChaos is idempotent. When the
CiliumEnvoyConfig the Record points at no longer exists (the API Get returns
not-found), Recover returns `(NotInjected, nil)` and leaves the cluster
untouched; and for any starting state, Recover returns `(NotInjected, nil)`
and a second Recover on the resulting state again returns
`(NotInjected, nil)` without changing the state. The hypothesis states the
claim premise that the resource has a configured targetService, since an
empty targetService never reaches the underlying API. -/
theorem envoy_recover_idempotent (c : Cluster) (index : Nat) (ec : EnvoyChaos)
    (hts : ¬ec.spec.targetService = "") :
    (clusterGet c (resolveServiceNamespace ec, envoyConfigName ec.name) = none →
      implRecover c index ec = ⟨Phase.NotInjected, none, c⟩) ∧
    (implRecover c index ec).phase = Phase.NotInjected ∧
    (implRecover c index ec).err = none ∧
    implRecover (implRecover c index ec).cluster index ec =
      ⟨Phase.NotInjected, none, (implRecover c index ec).cluster⟩ := by
  by_cases hidx : index > 0
  · simp [implRecover, hidx]
  · have hz : index = 0 := Nat.eq_zero_of_not_pos hidx
    subst hz
    cases hget : clusterGet c (resolveServiceNamespace ec, envoyConfigName ec.name) with
    | none =>
      have h1 : implRecover c 0 ec = ⟨Phase.NotInjected, none, c⟩ := by
        rw [implRecover_zero_eq c ec hts, hget]
      exact ⟨fun _ => h1, by rw [h1], by rw [h1], by rw [h1]; exact h1⟩
    | some v =>
      have h1 : implRecover c 0 ec = ⟨Phase.NotInjected, none,
          clusterDelete c (resolveServiceNamespace ec, envoyConfigName ec.name)⟩ := by
        rw [implRecover_zero_eq c ec hts, hget]
      have h2 := implRecover_zero_eq
        (clusterDelete c (resolveServiceNamespace ec, envoyConfigName ec.name)) ec hts
      simp only [clusterGet_delete_self] at h2
      exact ⟨fun hnone => Option.noConfusion hnone,
             by rw [h1], by rw [h1], by rw [h1]; exact h2⟩

/-- The CiliumEnvoyConfig object `Impl.applyEnvoyConfigForService` builds for
a resource: named `chaos-<resource-name>`, placed in the resolved service
namespace, referencing the target service there, carrying the generated
fault config. -/
def envoyBuiltConfig (ec : EnvoyChaos) : CiliumEnvoyConfig :=
  buildCiliumEnvoyConfig (envoyConfigName ec.name) (resolveServiceNamespace ec)
    ec.spec.targetService (resolveServiceNamespace ec) ec.name ec.spec.targetPort
    (generateFaultConfig ec.spec)

/-- The outcome of `Impl.Apply` at index 0 with a configured targetService:
create the built object, or replace the existing one wholesale. -/
theorem implApply_zero_eq (c : Cluster) (ec : EnvoyChaos)
    (hts : ¬ec.spec.targetService = "") :
    implApply c 0 ec =
      match clusterGet c (resolveServiceNamespace ec, envoyConfigName ec.name) with
      | none => ⟨Phase.Injected, none,
          ((resolveServiceNamespace ec, envoyConfigName ec.name), envoyBuiltConfig ec) :: c⟩
      | some _ => ⟨Phase.Injected, none,
          clusterReplace c (resolveServiceNamespace ec, envoyConfigName ec.name)
            (envoyBuiltConfig ec)⟩ := by
  cases hget : clusterGet c (resolveServiceNamespace ec, envoyConfigName ec.name) <;>
    simp [implApply, applyEnvoyConfigForService, clusterCreate, clusterUpdate,
      envoyBuiltConfig, hts, hget]

/-- Claim C9: the proxy-config boundary artifact is deterministically named
`chaos-<resource-name>`; Apply leaves exactly that object present with the
freshly built content (creating it, or updating the whole object when it
already exists), touches no other object, and Recover afterwards deletes the
object with that same name wholesale. -/
theorem envoy_config_boundary_artifact (c : Cluster) (ec : EnvoyChaos)
    (hts : ¬ec.spec.targetService = "") :
    envoyConfigName ec.name = "chaos-" ++ ec.name ∧
    (implApply c 0 ec).phase = Phase.Injected ∧
    (implApply c 0 ec).err = none ∧
    clusterGet (implApply c 0 ec).cluster
      (resolveServiceNamespace ec, envoyConfigName ec.name) = some (envoyBuiltConfig ec) ∧
    (∀ k, k ≠ (resolveServiceNamespace ec, envoyConfigName ec.name) →
      clusterGet (implApply c 0 ec).cluster k = clusterGet c k) ∧
    clusterGet (implRecover (implApply c 0 ec).cluster 0 ec).cluster
      (resolveServiceNamespace ec, envoyConfigName ec.name) = none := by
  cases hget : clusterGet c (resolveServiceNamespace ec, envoyConfigName ec.name) with
  | none =>
    have hA : implApply c 0 ec = ⟨Phase.Injected, none,
        ((resolveServiceNamespace ec, envoyConfigName ec.name), envoyBuiltConfig ec) :: c⟩ := by
      rw [implApply_zero_eq c ec hts, hget]
    have hget1 : clusterGet
        (((resolveServiceNamespace ec, envoyConfigName ec.name), envoyBuiltConfig ec) :: c)
        (resolveServiceNamespace ec, envoyConfigName ec.name) = some (envoyBuiltConfig ec) := by
      simp [clusterGet]
    refine ⟨rfl, by rw [hA], by rw [hA], by rw [hA]; exact hget1, ?_, ?_⟩
    · intro k hk
      have hne : ¬(resolveServiceNamespace ec, envoyConfigName ec.name) = k :=
        fun he => hk he.symm
      rw [hA]
      simp [clusterGet, hne]
    · have hR := implRecover_zero_eq
        (((resolveServiceNamespace ec, envoyConfigName ec.name), envoyBuiltConfig ec) :: c)
        ec hts
      simp only [hget1] at hR
      rw [hA, hR]
      exact clusterGet_delete_self _ _
  | some v =>
    have hA : implApply c 0 ec = ⟨Phase.Injected, none,
        clusterReplace c (resolveServiceNamespace ec, envoyConfigName ec.name)
          (envoyBuiltConfig ec)⟩ := by
      rw [implApply_zero_eq c ec hts, hget]
    have hget1 : clusterGet
        (clusterReplace c (resolveServiceNamespace ec, envoyConfigName ec.name)
          (envoyBuiltConfig ec))
        (resolveServiceNamespace ec, envoyConfigName ec.name) = some (envoyBuiltConfig ec) :=
      clusterGet_replace_self c _ _ v hget
    refine ⟨rfl, by rw [hA], by rw [hA], by rw [hA]; exact hget1, ?_, ?_⟩
    · intro k hk
      rw [hA]
      exact clusterGet_replace_ne c _ k _ hk
    · have hR := implRecover_zero_eq
        (clusterReplace c (resolveServiceNamespace ec, envoyConfigName ec.name)
          (envoyBuiltConfig ec)) ec hts
      simp only [hget1] at hR
      rw [hA, hR]
      exact clusterGet_delete_self _ _

/-- Claim C2: whenever `Impl.Apply` for RuntimeMutatorChaos returns an error
(nil decoder, record decode failure, validation failure, daemon install
error or unsuccessful daemon response), the returned Phase is NotInjected,
never Injected. -/
theorem rm_apply_not_injected_on_error (env : RMApplyEnv) (spec : RuntimeMutatorSpec)
    (h : (rmApply env spec).2 ≠ none) : (rmApply env spec).1 = Phase.NotInjected := by
  cases hdec : env.hasDecoder with
  | false => simp [rmApply, hdec]
  | true =>
    cases hdecode : env.decodeResult with
    | error e => simp [rmApply, hdec, hdecode]
    | ok cid =>
      by_cases hv1 : spec.action = "constant" ∧ (spec.fromVal = none ∨ spec.toVal = none)
      · simp [rmApply, hdec, hdecode, hv1]
      · by_cases hv2 : (spec.action = "operator" ∨ spec.action = "string") ∧
            spec.strategy = none
        · simp [rmApply, hdec, hdecode, hv1, hv2]
        · cases hinst : env.installResult with
          | error e => simp [rmApply, hdec, hdecode, hv1, hv2, hinst]
          | ok resp =>
            cases hs : resp.success with
            | false => simp [rmApply, hdec, hdecode, hv1, hv2, hinst, hs]
            | true =>
              exfalso
              apply h
              simp [rmApply, hdec, hdecode, hv1, hv2, hinst, hs]

/-- Claim C3: when the external install tool fails, `InstallJVMRules`
continues to the submit step exactly when the combined output contains one
of the four enumerated benign substrings, and surfaces the failure as an
error exactly when it contains none of them. -/
theorem install_jvm_rules_benign_classification (out : String) (sh sr : CmdResult) :
    ((strContains out errMsg1 || strContains out errMsg2 || strContains out errMsg3 ||
      strContains out errMsg4) = true →
      installJVMRulesFromInstall (CmdResult.fail out) sh sr = submitJVMSteps sh sr) ∧
    ((strContains out errMsg1 || strContains out errMsg2 || strContains out errMsg3 ||
      strContains out errMsg4) = false →
      installJVMRulesFromInstall (CmdResult.fail out) sh sr = Except.error out) := by
  constructor <;> intro h <;>
    cases h1 : strContains out errMsg1 <;> cases h2 : strContains out errMsg2 <;>
    cases h3 : strContains out errMsg3 <;> cases h4 : strContains out errMsg4 <;>
    simp_all [installJVMRulesFromInstall]

/-- Claim C4: `GrantAccess` resolves the `devices.allow` write target under
the `/host-sys` mount: v1 under the per-controller devices mount, v2 under
the unified mount, and a root cgroup path maps to the special-cased targets
containing no doubled separator. -/
theorem grant_access_devices_allow_path :
    resolveDevicesAllowPath true ("/") = "/host-sys/fs/cgroup/devices.allow" ∧
    resolveDevicesAllowPath false ("/") = "/host-sys/fs/cgroup/devices/devices.allow" ∧
    strContains ("/host-sys/fs/cgroup/devices.allow") ("//") = false ∧
    strContains ("/host-sys/fs/cgroup/devices/devices.allow") ("//") = false ∧
    (∀ p, p ≠ "/" →
      resolveDevicesAllowPath true p = "/host-sys/fs/cgroup" ++ p ++ "/devices.allow") ∧
    (∀ p, p ≠ "/" →
      resolveDevicesAllowPath false p =
        "/host-sys/fs/cgroup/devices" ++ p ++ "/devices.allow") := by
  refine ⟨rfl, rfl, by decide, by decide, ?_, ?_⟩ <;>
    intro p hp <;> simp [resolveDevicesAllowPath, hp]

/-- Claim C5: under cgroup v2, a readable `cgroup.controllers` file that
does not list the devices controller makes `GrantAccess` return success
without opening or writing any `devices.allow` file (no filesystem side
effect at all). -/
theorem grant_access_v2_devices_absent (writeFile : String → Except String Unit)
    (deviceCgroupPath controllers : String)
    (h : strContains controllers devicesControllerName = false) :
    grantAccessPostScan writeFile true deviceCgroupPath (some controllers) =
      (Except.ok (), []) := by
  simp [grantAccessPostScan, h]

/-- The percentage numerator of the generated delay filter section, when a
delay section was generated with a percentage. -/
def delayPercentageNumerator (fc : GeneratedFaultConfig) : Option Int :=
  match fc.delay with
  | some d => d.percentage.map (fun p => p.numerator)
  | none => none

/-- The percentage numerator of the generated abort filter section, when an
abort section was generated with a percentage. -/
def abortPercentageNumerator (fc : GeneratedFaultConfig) : Option Int :=
  match fc.abort with
  | some a => a.percentage.map (fun p => p.numerator)
  | none => none

/-- Claim C6: in the generated fault filter config, a set per-kind
percentage is the numerator used for that kind, and the resource-level
percentage is used only when the per-kind percentage is unset — for both the
abort and the delay sections. -/
theorem envoy_percentage_precedence :
    (∀ spec a p, spec.abort = some a → a.percentage = some p →
      abortPercentageNumerator (generateFaultConfig spec) = some p) ∧
    (∀ spec a, spec.abort = some a → a.percentage = none →
      abortPercentageNumerator (generateFaultConfig spec) = spec.percentage) ∧
    (∀ spec d p fd, spec.delay = some d → d.fixedDelay = some fd → d.percentage = some p →
      delayPercentageNumerator (generateFaultConfig spec) = some p) ∧
    (∀ spec d fd, spec.delay = some d → d.fixedDelay = some fd → d.percentage = none →
      delayPercentageNumerator (generateFaultConfig spec) = spec.percentage) := by
  refine ⟨?_, ?_, ?_, ?_⟩
  · intro spec a p ha hp
    simp [generateFaultConfig, abortPercentageNumerator, mkFaultPercentage,
      pickPercentage, ha, hp]
  · intro spec a ha hp
    cases hr : spec.percentage <;>
      simp [generateFaultConfig, abortPercentageNumerator, mkFaultPercentage,
        pickPercentage, ha, hp, hr]
  · intro spec d p fd hd hfd hp
    simp [generateFaultConfig, delayPercentageNumerator, mkFaultPercentage,
      pickPercentage, hd, hfd, hp]
  · intro spec d fd hd hfd hp
    cases hr : spec.percentage <;>
      simp [generateFaultConfig, delayPercentageNumerator, mkFaultPercentage,
        pickPercentage, hd, hfd, hp, hr]

/-- Claim C7: in `UninstallRuntimeMutator`, a failing disable call whose
output contains "Connection refused" is successful recovery (empty response,
nil error); any other failing disable call is surfaced as an error. -/
theorem uninstall_runtime_mutator_connection_refused (pid : Nat) (childPids : List Nat)
    (comm : Nat → Except String String) (j : Nat)
    (hjava : findJavaPid comm (pid :: childPids) = some j) (out : String) :
    (strContains out connectionRefusedMsg = true →
      uninstallRuntimeMutator (Except.ok pid) childPids comm (CmdResult.fail out) =
        Except.ok ()) ∧
    (strContains out connectionRefusedMsg = false →
      uninstallRuntimeMutator (Except.ok pid) childPids comm (CmdResult.fail out) =
        Except.error out) := by
  constructor <;> intro h <;> simp [uninstallRuntimeMutator, hjava, h]

/-- Claim C8: in `UninstallJVMRules`, a failing rule-removal command whose
output contains "No rule scripts to remove" is success with nil error; any
other rule-removal failure is surfaced as an error. -/
theorem uninstall_jvm_rules_nothing_to_remove (pid : Nat) (ruleFileName out : String) :
    (strContains out noRuleScriptsMsg = true →
      uninstallJVMRules (Except.ok pid) (Except.ok ruleFileName) (CmdResult.fail out) =
        Except.ok ()) ∧
    (strContains out noRuleScriptsMsg = false →
      uninstallJVMRules (Except.ok pid) (Except.ok ruleFileName) (CmdResult.fail out) =
        Except.error out) := by
  constructor <;> intro h <;> simp [uninstallJVMRules, h]

/-- Claim C10: after the EnvoyChaos defaulting webhook, a previously unset
resource-level percentage is set and equals 100. -/
theorem envoy_default_percentage (ec : EnvoyChaos) (h : ec.spec.percentage = none) :
    (envoyChaosDefault ec).spec.percentage = some 100 := by
  simp only [envoyChaosDefault]
  split <;> split <;> simp [h] <;> split <;> simp

/-! ### Concrete instances and witnesses -/

def ecC1 : EnvoyChaos :=
  { name := "demo"
    nspace := "default"
    spec := {
      action := "fault"
      protocol := "grpc"
      envoyConfigNamespace := ""
      delay := none
      abort := none
      percentage := none
      headers := []
      targetService := "svc"
      targetNamespace := ""
      targetPort := none } }

theorem envoy_recover_idempotent_witness :
    implRecover (implRecover [] 0 ecC1).cluster 0 ecC1 =
      ⟨Phase.NotInjected, none, (implRecover [] 0 ecC1).cluster⟩ :=
  (envoy_recover_idempotent [] 0 ecC1 (by decide)).2.2.2

def rmEnvC2 : RMApplyEnv :=
  { hasDecoder := false, decodeResult := Except.ok ("container-1"),
    installResult := Except.error ("daemon unreachable") }

def rmSpecC2 : RuntimeMutatorSpec :=
  { action := "constant", className := "com.example.Demo", method := "value",
    port := 9090, fromVal := none, toVal := none, strategy := none }

theorem rm_apply_not_injected_on_error_witness :
    (rmApply rmEnvC2 rmSpecC2).1 = Phase.NotInjected :=
  rm_apply_not_injected_on_error rmEnvC2 rmSpecC2 (by decide)

def benignOutC3 : String := "boot com.sun.tools.attach.AgentLoadException : 0"

def fatalOutC3 : String := "sh: bminstall.sh: not found"

theorem install_jvm_rules_benign_classification_witness :
    installJVMRulesFromInstall (CmdResult.fail benignOutC3)
        (CmdResult.ok ("")) (CmdResult.ok ("")) =
      submitJVMSteps (CmdResult.ok ("")) (CmdResult.ok ("")) ∧
    installJVMRulesFromInstall (CmdResult.fail fatalOutC3)
        (CmdResult.ok ("")) (CmdResult.ok ("")) =
      Except.error fatalOutC3 :=
  ⟨(install_jvm_rules_benign_classification benignOutC3
      (CmdResult.ok ("")) (CmdResult.ok (""))).1 (by decide),
   (install_jvm_rules_benign_classification fatalOutC3
      (CmdResult.ok ("")) (CmdResult.ok (""))).2 (by decide)⟩

theorem grant_access_devices_allow_path_witness :
    resolveDevicesAllowPath true ("/kubepods/burstable/pod123") =
      "/host-sys/fs/cgroup" ++ "/kubepods/burstable/pod123" ++ "/devices.allow" ∧
    resolveDevicesAllowPath false ("/kubepods/burstable/pod123") =
      "/host-sys/fs/cgroup/devices" ++ "/kubepods/burstable/pod123" ++ "/devices.allow" :=
  ⟨grant_access_devices_allow_path.2.2.2.2.1 ("/kubepods/burstable/pod123") (by decide),
   grant_access_devices_allow_path.2.2.2.2.2 ("/kubepods/burstable/pod123") (by decide)⟩

def controllersC5 : String := "cpuset cpu io memory hugetlb pids"

theorem grant_access_v2_devices_absent_witness :
    grantAccessPostScan (fun _ => Except.ok ()) true ("/") (some controllersC5) =
      (Except.ok (), []) :=
  grant_access_v2_devices_absent (fun _ => Except.ok ()) ("/") controllersC5 (by decide)

def abortC6 : EnvoyAbortConfig := { httpStatus := none, grpcStatus := some 14, percentage := some 30 }

def specC6 : EnvoyChaosSpec :=
  { action := "fault", protocol := "grpc", envoyConfigNamespace := "",
    delay := none, abort := some abortC6, percentage := some 100, headers := [],
    targetService := "svc", targetNamespace := "", targetPort := none }

theorem envoy_percentage_precedence_witness :
    abortPercentageNumerator (generateFaultConfig specC6) = some 30 :=
  envoy_percentage_precedence.1 specC6 abortC6 30 rfl rfl

def commC7 : Nat → Except String String := fun _ => Except.ok javaCommName

def refusedOutC7 : String :=
  "curl: (7) Failed to connect to localhost port 9090: Connection refused"

def otherOutC7 : String := "curl: (22) The requested URL returned error: 500"

theorem uninstall_runtime_mutator_connection_refused_witness :
    uninstallRuntimeMutator (Except.ok 1) [] commC7 (CmdResult.fail refusedOutC7) =
      Except.ok () ∧
    uninstallRuntimeMutator (Except.ok 1) [] commC7 (CmdResult.fail otherOutC7) =
      Except.error otherOutC7 :=
  ⟨(uninstall_runtime_mutator_connection_refused 1 [] commC7 1 (by decide)
      refusedOutC7).1 (by decide),
   (uninstall_runtime_mutator_connection_refused 1 [] commC7 1 (by decide)
      otherOutC7).2 (by decide)⟩

def noRulesOutC8 : String := "bmsubmit tried to uninstall but No rule scripts to remove"

def otherOutC8 : String := "bmsubmit: failed to connect to agent"

theorem uninstall_jvm_rules_nothing_to_remove_witness :
    uninstallJVMRules (Except.ok 1) (Except.ok ("/tmp/rule.btm"))
        (CmdResult.fail noRulesOutC8) = Except.ok () ∧
    uninstallJVMRules (Except.ok 1) (Except.ok ("/tmp/rule.btm"))
        (CmdResult.fail otherOutC8) = Except.error otherOutC8 :=
  ⟨(uninstall_jvm_rules_nothing_to_remove 1 ("/tmp/rule.btm") noRulesOutC8).1 (by decide),
   (uninstall_jvm_rules_nothing_to_remove 1 ("/tmp/rule.btm") otherOutC8).2 (by decide)⟩

def ecC9 : EnvoyChaos :=
  { name := "web"
    nspace := "default"
    spec := {
      action := "fault"
      protocol := "grpc"
      envoyConfigNamespace := ""
      delay := none
      abort := some abortC6
      percentage := some 100
      headers := []
      targetService := "backend"
      targetNamespace := ""
      targetPort := none } }

theorem envoy_config_boundary_artifact_witness :
    clusterGet (implApply [] 0 ecC9).cluster
      (resolveServiceNamespace ecC9, envoyConfigName ecC9.name) =
      some (envoyBuiltConfig ecC9) :=
  (envoy_config_boundary_artifact [] ecC9 (by decide)).2.2.2.1

def ecC10 : EnvoyChaos :=
  { name := "demo"
    nspace := "default"
    spec := {
      action := ""
      protocol := ""
      envoyConfigNamespace := ""
      delay := none
      abort := none
      percentage := none
      headers := []
      targetService := ""
      targetNamespace := ""
      targetPort := none } }

theorem envoy_default_percentage_witness :
    (envoyChaosDefault ecC10).spec.percentage = some 100 :=
  envoy_default_percentage ecC10 (by decide)
